import Mathlib

/-!
Verification of the Hybrid training-load dashboard.

Dates are modelled as integers counting calendar days since the Unix epoch
(1970-01-01, a Thursday).  The frontend date utilities (`utils/date.ts`)
operate on UTC-midnight `Date` values and add whole multiples of
`DAY_IN_MS`, so every `Date` the utilities produce or consume is exactly
such a day number; `toIsoDate` is the identity in this model.

Monetary-free numeric quantities (durations, RPE values, load scores) are
modelled over ℚ, matching the exact arithmetic of the formulas.
-/

namespace Hybrid

/-! ## Date utilities (`utils/date.ts`) -/

/-- JavaScript `Date.prototype.getUTCDay` on a UTC-midnight date: 0 is
Sunday, 1 is Monday, …, 6 is Saturday.  Day 0 (1970-01-01) was a Thursday,
so the value is `(d + 4) mod 7`. -/
def getUTCDay (d : ℤ) : ℤ := (d + 4) % 7

/-- `startOfWeek` from `utils/date.ts`: subtracts
`daysSinceMonday = (getUTCDay(d) + 6) % 7` from the date. -/
def startOfWeek (d : ℤ) : ℤ := d - (getUTCDay d + 6) % 7

/-- `startOfWeekIso` from `utils/date.ts`: `toIsoDate (startOfWeek d)`,
which in the day-number model is just `startOfWeek`. -/
def startOfWeekIso (d : ℤ) : ℤ := startOfWeek d

/-- `shiftWeek` from `utils/date.ts`: adds `deltaWeeks * 7` days to the
week-start date and re-anchors with `startOfWeek`. -/
def shiftWeek (weekStart : ℤ) (deltaWeeks : ℤ) : ℤ :=
  startOfWeek (weekStart + deltaWeeks * 7)

/-- `getWeekDays` from `utils/date.ts`: the 7 dates obtained by adding
`index * DAY_IN_MS` to the week start for `index = 0, …, 6`. -/
def getWeekDays (weekStart : ℤ) : List ℤ :=
  (List.range 7).map (fun index => weekStart + (index : ℤ))

/-- The end date used by `formatWeekRange` in `utils/date.ts`:
`start + 6 * DAY_IN_MS`. -/
def formatWeekRangeEnd (weekStart : ℤ) : ℤ := weekStart + 6

/-- `WeekSelector`: picking a date in the date input emits
`startOfWeekIso(new Date(picked))`. -/
def weekSelectorPick (picked : ℤ) : ℤ := startOfWeekIso picked

/-- `WeekSelector`: the Prev button emits `shiftWeek(weekStart, -1)`. -/
def weekSelectorPrev (weekStart : ℤ) : ℤ := shiftWeek weekStart (-1)

/-- `WeekSelector`: the Next button emits `shiftWeek(weekStart, 1)`. -/
def weekSelectorNext (weekStart : ℤ) : ℤ := shiftWeek weekStart 1

/-- A date is a Monday when its `getUTCDay` is 1. -/
def isMonday (d : ℤ) : Prop := getUTCDay d = 1

instance (d : ℤ) : Decidable (isMonday d) := by
  unfold isMonday; infer_instance

/-! ## WeeklyGrid session form (`pages/WeeklyGrid.tsx`)

`formState` holds the raw form fields.  `duration_minutes` is the numeric
value `Number(formState.duration_minutes)` of the duration text field;
`intensity_rpe` is the value of the RPE number input (an HTML number input
with step 1, hence an integer).  `sport_id` is the value of the sport
select (`none` models the empty selection). -/

structure FormState where
  date : String
  sport_id : Option ℤ
  category : String
  duration_minutes : ℚ
  intensity_rpe : ℤ
  planned : Bool
deriving DecidableEq

/-- `ActivityCreate` payload as built by `handleSubmit`: date, sport,
duration and RPE are passed through from the form unchanged. -/
structure ActivityCreate where
  sport_id : ℤ
  date : String
  category : String
  duration_minutes : ℚ
  intensity_rpe : ℤ
deriving DecidableEq

/-- The three outcomes `handleSubmit` can produce: store a planned entry
locally, issue an update request, or issue a create request. -/
inductive SubmitEffect where
  | storePlanned (payload : ActivityCreate)
  | updateRequest (payload : ActivityCreate)
  | createRequest (payload : ActivityCreate)
deriving DecidableEq

/-- The payload carried by a `SubmitEffect`. -/
def SubmitEffect.payload : SubmitEffect → ActivityCreate
  | .storePlanned p => p
  | .updateRequest p => p
  | .createRequest p => p

/-- `isFormValid` from `WeeklyGrid.tsx`: the date, sport and focus fields
are non-empty, `durationValue > 0`, and `1 ≤ intensityValue ≤ 10`. -/
def isFormValid (s : FormState) : Bool :=
  !s.date.isEmpty && s.sport_id.isSome && !s.category.isEmpty &&
    decide (0 < s.duration_minutes) &&
    decide (1 ≤ s.intensity_rpe) && decide (s.intensity_rpe ≤ 10)

/-- The `payload` object `handleSubmit` builds from the form state: date,
sport, duration and RPE are passed through unchanged. -/
def formPayload (s : FormState) : ActivityCreate :=
  { sport_id := s.sport_id.getD 0
    date := s.date
    category := s.category
    duration_minutes := s.duration_minutes
    intensity_rpe := s.intensity_rpe }

/-- `handleSubmit` from `WeeklyGrid.tsx`: returns early (no effect at all)
when `isFormValid` is false; otherwise builds the payload from the form
state unchanged and either stores it as a planned entry (planned mode, not
editing), issues an update request (edit mode), or issues a create
request. -/
def handleSubmit (editing : Bool) (s : FormState) : Option SubmitEffect :=
  if !isFormValid s then none
  else if s.planned && !editing then some (.storePlanned (formPayload s))
  else if editing then some (.updateRequest (formPayload s))
  else some (.createRequest (formPayload s))

/-! ## Analytics overview (`pages/AnalyticsOverview.tsx`) -/

/-- The per-sport percentage from `AnalyticsOverview.tsx`: `0` when
`stats.total_duration_minutes === 0`, otherwise
`Math.round((sport.total_duration_minutes / stats.total_duration_minutes) * 100)`.
(JavaScript `Math.round x = ⌊x + 1/2⌋`, which is Mathlib `round` on ℚ.) -/
def sportPercentage (sportTotal total : ℚ) : ℤ :=
  if total = 0 then 0 else round (sportTotal / total * 100)

/-! ## Body heat map rendering (`pages/BodyHeatMap.tsx`, `pages/bodyRegions.ts`) -/

/-- The six-bucket color vocabulary (`LoadCategory` in `api/types.ts`). -/
inductive LoadCategory where
  | white
  | blue
  | green
  | yellow
  | orange
  | red
deriving DecidableEq

/-- The string name of a category, as it appears on the wire and in CSS
class names. -/
def LoadCategory.name : LoadCategory → String
  | .white => "white"
  | .blue => "blue"
  | .green => "green"
  | .yellow => "yellow"
  | .orange => "orange"
  | .red => "red"

/-- `loadCategoryToClass` from `pages/bodyRegions.ts`:
the CSS class is the category name with a `heat-` stem. -/
def loadCategoryToClass (category : LoadCategory) : String :=
  "heat-" ++ category.name

/-- `MuscleLoad` rows from `api/types.ts`: per-muscle scores and
categories for both classifiers. -/
structure MuscleLoad where
  muscle_id : ℤ
  muscle_name : String
  load_score : ℚ
  load_category : LoadCategory
  fatigue_score : ℚ
  fatigue_category : LoadCategory

/-- The two heat map variants rendered by `BodyHeatMap.tsx`. -/
inductive HeatmapVariant where
  | acwr
  | fatigue
deriving DecidableEq

/-- `getVariantMetrics` from `BodyHeatMap.tsx`, restricted to the category
it selects: the ACWR variant shows `load_category`, the fatigue variant
shows `fatigue_category`. -/
def getVariantCategory (muscle : MuscleLoad) : HeatmapVariant → LoadCategory
  | .acwr => muscle.load_category
  | .fatigue => muscle.fatigue_category

/-- `RegionSwatch` from `BodyHeatMap.tsx`: a region with no matching
muscle load renders with class `heat-white`; otherwise the class comes
from `loadCategoryToClass` on the variant's category. -/
def regionCategoryClass (load : Option MuscleLoad) (variant : HeatmapVariant) : String :=
  match load with
  | none => "heat-white"
  | some muscle => loadCategoryToClass (getVariantCategory muscle variant)

/-! ## Load formula engine and classifiers

The FastAPI service that computes loads, windows and ACWR is absent from
the sources (only its schema reference `db/SNOWFLAKE_SCHEMA.md` and its
frontend callers are present), so this section is modelled from the spec.
-/

/-- Modelled from the spec: `intensity_factor` of the Load Formula Engine
(the backend service is missing); it linearly maps RPE 1–10 onto
[0.6, 1.4] via `0.6 + (rpe - 1) / 9 * 0.8`. -/
def intensity_factor (rpe : ℚ) : ℚ :=
  6/10 + (rpe - 1) / 9 * (8/10)

/-- Modelled from the spec: a session row as consumed by the Load Formula
Engine (sport, calendar day, positive duration in minutes, RPE). -/
structure Session where
  sport_id : ℤ
  date : ℤ
  duration_minutes : ℚ
  intensity_rpe : ℚ
deriving DecidableEq

/-- Modelled from the spec: the Load Formula Engine's per-muscle
contribution of one session,
`duration_minutes * base_load_per_minute(sport, muscle) * intensity_factor(rpe)`.
The coefficient table is a total map with 0 for missing entries ("missing
coefficient entries: treated as zero contribution"). -/
def contribution (coef : ℤ → ℤ → ℚ) (s : Session) (muscle : ℤ) : ℚ :=
  s.duration_minutes * coef s.sport_id muscle * intensity_factor s.intensity_rpe

/-- Modelled from the spec: the Window Aggregator (the backend service is
missing); per-muscle total load over the inclusive date range
`[startDay, endDay]`, summing Load Formula Engine contributions across
every session whose date falls in range. -/
def windowTotal (startDay endDay : ℤ) (coef : ℤ → ℤ → ℚ)
    (sessions : List Session) (muscle : ℤ) : ℚ :=
  ((sessions.filter (fun s => decide (startDay ≤ s.date ∧ s.date ≤ endDay))).map
      (fun s => contribution coef s muscle)).sum

/-- Modelled from the spec: the ACWR ratio with its zero-chronic fallback:
`acute / chronic_avg`, fixed to `1.0` when `chronic_avg = 0`. -/
def acwrScore (acute chronicAvg : ℚ) : ℚ :=
  if chronicAvg = 0 then 1 else acute / chronicAvg

/-- Modelled from the spec: the acute window total — trailing 7-day window
ending at the query date, both endpoints inclusive. -/
def acuteLoad (queryDate : ℤ) (coef : ℤ → ℤ → ℚ)
    (sessions : List Session) (muscle : ℤ) : ℚ :=
  windowTotal (queryDate - 6) queryDate coef sessions muscle

/-- Modelled from the spec: the chronic average — total load over the
trailing 4 full prior weeks (28 days ending the day before the acute
window), divided by 4 to express a per-week average. -/
def chronicAvgLoad (queryDate : ℤ) (coef : ℤ → ℤ → ℚ)
    (sessions : List Session) (muscle : ℤ) : ℚ :=
  windowTotal (queryDate - 34) (queryDate - 7) coef sessions muscle / 4

/-- Modelled from the spec: the per-muscle ACWR value computed by the
`/muscle-load` endpoint, `acwrScore` of the acute and chronic windows. -/
def computeMuscleAcwr (queryDate : ℤ) (coef : ℤ → ℤ → ℚ)
    (sessions : List Session) (muscle : ℤ) : ℚ :=
  acwrScore (acuteLoad queryDate coef sessions muscle)
    (chronicAvgLoad queryDate coef sessions muscle)

/-- Modelled from the spec: muscle sensitivity tiers. -/
inductive Tier where
  | A
  | B
  | C
deriving DecidableEq

/-- Modelled from the spec: the static per-tier ACWR threshold row —
`blue` strictly below `blueBelow`, then inclusive upper bounds for
`green`, `yellow` and `orange`, `red` above. -/
structure TierThresholds where
  blueBelow : ℚ
  greenUpTo : ℚ
  yellowUpTo : ℚ
  orangeUpTo : ℚ
deriving DecidableEq

/-- Modelled from the spec: the ACWR threshold table
(tier A: 0.7 / 1.4 / 1.8 / 2.3; tier B: 0.8 / 1.3 / 1.5 / 1.8;
tier C: 0.9 / 1.2 / 1.4 / 1.6). -/
def tierThresholds : Tier → TierThresholds
  | .A => ⟨7/10, 14/10, 18/10, 23/10⟩
  | .B => ⟨8/10, 13/10, 15/10, 18/10⟩
  | .C => ⟨9/10, 12/10, 14/10, 16/10⟩

/-- Modelled from the spec: classification of an ACWR value against one
threshold row — first matching bucket of
`blue < green ≤ yellow ≤ orange < red`. -/
def classifyWithThresholds (t : TierThresholds) (x : ℚ) : LoadCategory :=
  if x < t.blueBelow then .blue
  else if x ≤ t.greenUpTo then .green
  else if x ≤ t.yellowUpTo then .yellow
  else if x ≤ t.orangeUpTo then .orange
  else .red

/-- Modelled from the spec: the ACWR Classifier's bucket for a muscle of
the given tier (the `white` bucket is handled separately by the zero-load
gate in `acwrResult`). -/
def classifyAcwr (tier : Tier) (x : ℚ) : LoadCategory :=
  classifyWithThresholds (tierThresholds tier) x

/-- Modelled from the spec: the Fatigue Classifier's bucket thresholds.
The spec fixes only that they are absolute, monotonic and
tier-independent; the concrete constants are representative. -/
def classifyFatigue (x : ℚ) : LoadCategory :=
  if x < 10 then .blue
  else if x ≤ 25 then .green
  else if x ≤ 45 then .yellow
  else if x ≤ 70 then .orange
  else .red

/-- Modelled from the spec: the ACWR Classifier's (score, category) output
for one muscle: `white` with score 0 exactly when the muscle has zero
recorded load for the week, otherwise the ACWR value bucketed by tier. -/
def acwrResult (tier : Tier) (weekLoad acute chronicAvg : ℚ) : ℚ × LoadCategory :=
  if weekLoad = 0 then (0, .white)
  else (acwrScore acute chronicAvg, classifyAcwr tier (acwrScore acute chronicAvg))

/-- Modelled from the spec: the Fatigue Classifier's (score, category)
output: `white` with score 0 exactly when the muscle has zero recorded
load for the week, otherwise the linear score bucketed by the fixed
thresholds. -/
def fatigueResult (weekLoad : ℚ) : ℚ × LoadCategory :=
  if weekLoad = 0 then (0, .white)
  else (weekLoad, classifyFatigue weekLoad)

/-! ## Theorems -/

/-- C4: every week the system computes over is Monday-anchored: for every
date `d`, `startOfWeek d` is a Monday, is at most `d`, and is at most 6
days before `d`; and every week-start the week selector emits — from an
arbitrarily picked date, or from Prev/Next navigation — is such a
Monday. -/
theorem startOfWeek_monday_anchored :
    (∀ d : ℤ, isMonday (startOfWeek d) ∧ startOfWeek d ≤ d ∧ d - startOfWeek d ≤ 6) ∧
    (∀ picked : ℤ, isMonday (weekSelectorPick picked)) ∧
    (∀ w : ℤ, isMonday (weekSelectorPrev w) ∧ isMonday (weekSelectorNext w)) := by
  have key : ∀ d : ℤ, isMonday (startOfWeek d) ∧ startOfWeek d ≤ d ∧ d - startOfWeek d ≤ 6 := by
    intro d
    unfold isMonday startOfWeek getUTCDay
    omega
  refine ⟨key, fun picked => (key picked).1, fun w => ⟨?_, ?_⟩⟩
  · exact (key (w + (-1) * 7)).1
  · exact (key (w + 1 * 7)).1

/-- C5: a calendar week spans exactly 7 consecutive calendar days: for
every week-start `w`, `getWeekDays w` is exactly
`[w, w+1, w+2, w+3, w+4, w+5, w+6]` — 7 dates, the first equal to `w`,
each subsequent one the next calendar day — and the displayed week range
ends exactly 6 days after `w`. -/
theorem getWeekDays_seven_consecutive :
    ∀ w : ℤ, getWeekDays w = [w, w + 1, w + 2, w + 3, w + 4, w + 5, w + 6] ∧
      (getWeekDays w).length = 7 ∧
      formatWeekRangeEnd w = w + 6 := by
  intro w
  have h : getWeekDays w = [w, w + 1, w + 2, w + 3, w + 4, w + 5, w + 6] := by
    show (List.range 7).map (fun index => w + (index : ℤ)) = _
    norm_num [List.range_succ]
  exact ⟨h, by rw [h]; rfl, rfl⟩

/-- C9: week navigation is reversible and stays Monday-aligned: for every
Monday-aligned date `w` and every integer `n`, `shiftWeek w n` is again
Monday-aligned, `shiftWeek (shiftWeek w n) (-n) = w`, and `startOfWeek`
is idempotent on every date. -/
theorem shiftWeek_reversible (w : ℤ) (n : ℤ) (hw : isMonday w) :
    isMonday (shiftWeek w n) ∧
    shiftWeek (shiftWeek w n) (-n) = w ∧
    (∀ d : ℤ, startOfWeek (startOfWeek d) = startOfWeek d) := by
  refine ⟨?_, ?_, ?_⟩
  · unfold isMonday shiftWeek startOfWeek getUTCDay at *
    omega
  · unfold isMonday shiftWeek startOfWeek getUTCDay at *
    omega
  · intro d
    unfold startOfWeek getUTCDay
    omega

/-- Witness for C9 at the concrete Monday 1970-01-05 (day 4) and `n = 3`. -/
theorem shiftWeek_reversible_witness :
    isMonday (4 : ℤ) ∧
    (isMonday (shiftWeek 4 3) ∧ shiftWeek (shiftWeek 4 3) (-3) = 4 ∧
      (∀ d : ℤ, startOfWeek (startOfWeek d) = startOfWeek d)) :=
  ⟨by decide, shiftWeek_reversible 4 3 (by decide)⟩

/-- C3: every submission with `duration_minutes ≤ 0` or RPE outside the
integer range 1–10 is rejected at the boundary — `handleSubmit` produces
no effect, so no create/update request is issued — and whenever a
submission does go through, the payload carries the form values unchanged
(never clamped) and they satisfy `0 < duration` and `1 ≤ rpe ≤ 10`. -/
theorem invalid_session_rejected_at_boundary (editing : Bool) (s : FormState)
    (h : s.duration_minutes ≤ 0 ∨ s.intensity_rpe < 1 ∨ 10 < s.intensity_rpe) :
    handleSubmit editing s = none ∧
    ∀ e : SubmitEffect, ∀ t : FormState, handleSubmit editing t = some e →
      e.payload.duration_minutes = t.duration_minutes ∧
      e.payload.intensity_rpe = t.intensity_rpe ∧
      0 < e.payload.duration_minutes ∧
      1 ≤ e.payload.intensity_rpe ∧ e.payload.intensity_rpe ≤ 10 := by
  constructor
  · have hv : isFormValid s = false := by
      by_contra hne
      rw [Bool.not_eq_false] at hne
      unfold isFormValid at hne
      simp only [Bool.and_eq_true, decide_eq_true_eq] at hne
      rcases h with h | h | h
      · exact absurd hne.1.1.2 (not_lt.mpr h)
      · omega
      · omega
    unfold handleSubmit
    rw [hv]
    rfl
  · intro e t he
    unfold handleSubmit at he
    split at he
    · cases he
    · have hd : 0 < t.duration_minutes ∧ 1 ≤ t.intensity_rpe ∧ t.intensity_rpe ≤ 10 := by
        rename_i hvalid
        have hv : isFormValid t = true := by
          revert hvalid
          cases isFormValid t <;> simp
        unfold isFormValid at hv
        simp only [Bool.and_eq_true, decide_eq_true_eq] at hv
        exact ⟨hv.1.1.2, hv.1.2, hv.2⟩
      split at he
      · cases he
        exact ⟨rfl, rfl, hd.1, hd.2.1, hd.2.2⟩
      · split at he
        · cases he
          exact ⟨rfl, rfl, hd.1, hd.2.1, hd.2.2⟩
        · cases he
          exact ⟨rfl, rfl, hd.1, hd.2.1, hd.2.2⟩

/-- Witness for C3: a submission with duration 0 and RPE 5 is rejected,
and a valid submission with duration 45 and RPE 7 goes through with both
values unchanged. -/
theorem invalid_session_rejected_at_boundary_witness :
    ((0 : ℚ) ≤ 0 ∨ (5 : ℤ) < 1 ∨ (10 : ℤ) < 5) ∧
    handleSubmit false ⟨"2025-01-06", some 1, "Endurance", 0, 5, false⟩ = none ∧
    (handleSubmit false ⟨"2025-01-06", some 1, "Endurance", 45, 7, false⟩ =
        some (.createRequest ⟨1, "2025-01-06", "Endurance", 45, 7⟩) →
      ((SubmitEffect.createRequest ⟨1, "2025-01-06", "Endurance", 45, 7⟩).payload.duration_minutes
          = (45 : ℚ) ∧
        (SubmitEffect.createRequest ⟨1, "2025-01-06", "Endurance", 45, 7⟩).payload.intensity_rpe
          = (7 : ℤ) ∧
        (0 : ℚ) < 45 ∧ (1 : ℤ) ≤ 7 ∧ (7 : ℤ) ≤ 10)) := by
  have h := invalid_session_rejected_at_boundary false
    ⟨"2025-01-06", some 1, "Endurance", 0, 5, false⟩ (Or.inl (by norm_num))
  refine ⟨Or.inl (by norm_num), h.1, fun he => ?_⟩
  exact h.2 (.createRequest ⟨1, "2025-01-06", "Endurance", 45, 7⟩)
    ⟨"2025-01-06", some 1, "Endurance", 45, 7, false⟩ he

/-- C10: the per-sport percentage never divides by zero: when the weekly
total duration is 0 the percentage is 0, and otherwise it equals
`round (100 * sportTotal / total)`, so the displayed value is always a
well-defined integer. -/
theorem sportPercentage_never_div_by_zero :
    (∀ sportTotal : ℚ, sportPercentage sportTotal 0 = 0) ∧
    (∀ sportTotal total : ℚ, total ≠ 0 →
      sportPercentage sportTotal total = round (100 * sportTotal / total)) := by
  constructor
  · intro sportTotal
    simp [sportPercentage]
  · intro sportTotal total h
    unfold sportPercentage
    rw [if_neg h]
    congr 1
    field_simp
    ring

/-- Witness for C10 at the concrete stats total 120 with a 30-minute
sport. -/
theorem sportPercentage_never_div_by_zero_witness :
    sportPercentage 30 120 = round ((100 : ℚ) * 30 / 120) :=
  sportPercentage_never_div_by_zero.2 30 120 (by norm_num)

/-- C2: `intensity_factor` is the linear map `0.6 + (rpe - 1) / 9 * 0.8`:
it sends 1 to 0.6, 10 to 1.4, the midpoint 5.5 to exactly 1.0, and it is
affine (it commutes with midpoints). -/
theorem intensity_factor_linear_map :
    intensity_factor 1 = 6/10 ∧
    intensity_factor 10 = 14/10 ∧
    intensity_factor (11/2) = 1 ∧
    (∀ a b : ℚ,
      intensity_factor ((a + b) / 2) = (intensity_factor a + intensity_factor b) / 2) := by
  refine ⟨?_, ?_, ?_, fun a b => ?_⟩ <;> unfold intensity_factor <;> ring

/-- C1: for every muscle, the ACWR is `acute / chronic_avg`, and whenever
the chronic average is zero the result is fixed to exactly 1 — never a
division by zero and never an error. -/
theorem acwr_zero_chronic_fallback (queryDate : ℤ) (coef : ℤ → ℤ → ℚ)
    (sessions : List Session) (muscle : ℤ) :
    (chronicAvgLoad queryDate coef sessions muscle = 0 →
      computeMuscleAcwr queryDate coef sessions muscle = 1) ∧
    (chronicAvgLoad queryDate coef sessions muscle ≠ 0 →
      computeMuscleAcwr queryDate coef sessions muscle =
        acuteLoad queryDate coef sessions muscle /
          chronicAvgLoad queryDate coef sessions muscle) := by
  constructor <;> intro h <;> unfold computeMuscleAcwr acwrScore
  · rw [if_pos h]
  · rw [if_neg h]

/-- Witness for C1: a muscle with no training history at all has chronic
average 0 and ACWR exactly 1. -/
theorem acwr_zero_chronic_fallback_witness :
    chronicAvgLoad 100 (fun _ _ => 1) [] 1 = 0 ∧
    computeMuscleAcwr 100 (fun _ _ => 1) [] 1 = 1 := by
  have h0 : chronicAvgLoad 100 (fun _ _ => 1) [] 1 = 0 := by
    simp [chronicAvgLoad, windowTotal]
  exact ⟨h0, (acwr_zero_chronic_fallback 100 (fun _ _ => 1) [] 1).1 h0⟩

/-- C8: aggregation over a window does not depend on the order sessions
are supplied in: permuting the session list leaves every per-muscle window
total unchanged. -/
theorem windowTotal_perm_invariant (startDay endDay : ℤ) (coef : ℤ → ℤ → ℚ)
    (sessions1 sessions2 : List Session) (muscle : ℤ)
    (hp : sessions1.Perm sessions2) :
    windowTotal startDay endDay coef sessions1 muscle =
      windowTotal startDay endDay coef sessions2 muscle := by
  unfold windowTotal
  exact List.Perm.sum_eq ((hp.filter _).map _)

/-- Witness for C8: swapping two concrete sessions leaves the window total
unchanged. -/
theorem windowTotal_perm_invariant_witness :
    windowTotal 0 6 (fun _ _ => 1) [⟨2, 5, 30, 5⟩, ⟨1, 3, 60, 7⟩] 1 =
      windowTotal 0 6 (fun _ _ => 1) [⟨1, 3, 60, 7⟩, ⟨2, 5, 30, 5⟩] 1 :=
  windowTotal_perm_invariant 0 6 (fun _ _ => 1)
    [⟨2, 5, 30, 5⟩, ⟨1, 3, 60, 7⟩] [⟨1, 3, 60, 7⟩, ⟨2, 5, 30, 5⟩] 1
    (List.Perm.swap (⟨1, 3, 60, 7⟩ : Session) ⟨2, 5, 30, 5⟩ [])

/-- The if-chain classifier realizes the bucket semantics of one threshold
row whenever the row is monotone: `blue` strictly below, inclusive upper
bounds for `green`, `yellow`, `orange`, and `red` above. -/
theorem classifyWithThresholds_buckets (t : TierThresholds) (x : ℚ)
    (h1 : t.blueBelow ≤ t.greenUpTo) (h2 : t.greenUpTo ≤ t.yellowUpTo)
    (h3 : t.yellowUpTo ≤ t.orangeUpTo) :
    (classifyWithThresholds t x = .blue ↔ x < t.blueBelow) ∧
    (classifyWithThresholds t x = .green ↔ t.blueBelow ≤ x ∧ x ≤ t.greenUpTo) ∧
    (classifyWithThresholds t x = .yellow ↔ t.greenUpTo < x ∧ x ≤ t.yellowUpTo) ∧
    (classifyWithThresholds t x = .orange ↔ t.yellowUpTo < x ∧ x ≤ t.orangeUpTo) ∧
    (classifyWithThresholds t x = .red ↔ t.orangeUpTo < x) := by
  unfold classifyWithThresholds
  split_ifs with hb hg hy ho
  · refine ⟨iff_of_true rfl hb, iff_of_false nofun ?_, iff_of_false nofun ?_,
      iff_of_false nofun ?_, iff_of_false nofun ?_⟩
    · intro hh; linarith [hh.1]
    · intro hh; linarith [hh.1]
    · intro hh; linarith [hh.1]
    · intro hh; linarith
  · push_neg at hb
    refine ⟨iff_of_false nofun ?_, iff_of_true rfl ⟨hb, hg⟩, iff_of_false nofun ?_,
      iff_of_false nofun ?_, iff_of_false nofun ?_⟩
    · intro hh; linarith
    · intro hh; linarith [hh.1]
    · intro hh; linarith [hh.1]
    · intro hh; linarith
  · push_neg at hb hg
    refine ⟨iff_of_false nofun ?_, iff_of_false nofun ?_, iff_of_true rfl ⟨hg, hy⟩,
      iff_of_false nofun ?_, iff_of_false nofun ?_⟩
    · intro hh; linarith
    · intro hh; linarith [hh.2]
    · intro hh; linarith [hh.1]
    · intro hh; linarith
  · push_neg at hb hg hy
    refine ⟨iff_of_false nofun ?_, iff_of_false nofun ?_, iff_of_false nofun ?_,
      iff_of_true rfl ⟨hy, ho⟩, iff_of_false nofun ?_⟩
    · intro hh; linarith
    · intro hh; linarith [hh.2]
    · intro hh; linarith [hh.2]
    · intro hh; linarith
  · push_neg at hb hg hy ho
    refine ⟨iff_of_false nofun ?_, iff_of_false nofun ?_, iff_of_false nofun ?_,
      iff_of_false nofun ?_, iff_of_true rfl ho⟩
    · intro hh; linarith
    · intro hh; linarith [hh.2]
    · intro hh; linarith [hh.2]
    · intro hh; linarith [hh.2]

/-- C6: ACWR classification follows the tier-specific threshold table with
inclusive upper bounds — tier A: blue < 0.7, green ≤ 1.4, yellow ≤ 1.8,
orange ≤ 2.3, red > 2.3; tier B: < 0.8, ≤ 1.3, ≤ 1.5, ≤ 1.8, > 1.8;
tier C: < 0.9, ≤ 1.2, ≤ 1.4, ≤ 1.6, > 1.6 — and a tier-A muscle with
acute 70 and chronic average 50 gets ACWR 1.4 and category green. -/
theorem classifyAcwr_tier_table :
    (∀ x : ℚ,
      (classifyAcwr .A x = .blue ↔ x < 7/10) ∧
      (classifyAcwr .A x = .green ↔ 7/10 ≤ x ∧ x ≤ 14/10) ∧
      (classifyAcwr .A x = .yellow ↔ 14/10 < x ∧ x ≤ 18/10) ∧
      (classifyAcwr .A x = .orange ↔ 18/10 < x ∧ x ≤ 23/10) ∧
      (classifyAcwr .A x = .red ↔ 23/10 < x)) ∧
    (∀ x : ℚ,
      (classifyAcwr .B x = .blue ↔ x < 8/10) ∧
      (classifyAcwr .B x = .green ↔ 8/10 ≤ x ∧ x ≤ 13/10) ∧
      (classifyAcwr .B x = .yellow ↔ 13/10 < x ∧ x ≤ 15/10) ∧
      (classifyAcwr .B x = .orange ↔ 15/10 < x ∧ x ≤ 18/10) ∧
      (classifyAcwr .B x = .red ↔ 18/10 < x)) ∧
    (∀ x : ℚ,
      (classifyAcwr .C x = .blue ↔ x < 9/10) ∧
      (classifyAcwr .C x = .green ↔ 9/10 ≤ x ∧ x ≤ 12/10) ∧
      (classifyAcwr .C x = .yellow ↔ 12/10 < x ∧ x ≤ 14/10) ∧
      (classifyAcwr .C x = .orange ↔ 14/10 < x ∧ x ≤ 16/10) ∧
      (classifyAcwr .C x = .red ↔ 16/10 < x)) ∧
    acwrScore 70 50 = 14/10 ∧
    classifyAcwr .A (acwrScore 70 50) = .green := by
  have hscore : acwrScore 70 50 = 14/10 := by
    norm_num [acwrScore]
  refine ⟨?_, ?_, ?_, hscore, by rw [hscore]; norm_num [classifyAcwr, classifyWithThresholds, tierThresholds]⟩ <;> intro x
  · have h := classifyWithThresholds_buckets (tierThresholds .A) x
      (by norm_num [tierThresholds]) (by norm_num [tierThresholds])
      (by norm_num [tierThresholds])
    simpa [classifyAcwr, tierThresholds] using h
  · have h := classifyWithThresholds_buckets (tierThresholds .B) x
      (by norm_num [tierThresholds]) (by norm_num [tierThresholds])
      (by norm_num [tierThresholds])
    simpa [classifyAcwr, tierThresholds] using h
  · have h := classifyWithThresholds_buckets (tierThresholds .C) x
      (by norm_num [tierThresholds]) (by norm_num [tierThresholds])
      (by norm_num [tierThresholds])
    simpa [classifyAcwr, tierThresholds] using h

/-- The ACWR classifier's if-chain never yields `white`. -/
theorem classifyAcwr_ne_white (tier : Tier) (x : ℚ) : classifyAcwr tier x ≠ .white := by
  unfold classifyAcwr classifyWithThresholds
  split_ifs <;> exact nofun

/-- The fatigue classifier's if-chain never yields `white`. -/
theorem classifyFatigue_ne_white (x : ℚ) : classifyFatigue x ≠ .white := by
  unfold classifyFatigue
  split_ifs <;> exact nofun

/-- C7: the category `white` is assigned exactly to muscles with zero
recorded load for the entire week, by both classifiers, each with score 0,
and to no muscle with any recorded load; and a region without data renders
as white in the heat map. -/
theorem white_exactly_for_zero_weekly_load :
    (∀ tier acute chronicAvg, acwrResult tier 0 acute chronicAvg = (0, .white)) ∧
    fatigueResult 0 = (0, .white) ∧
    (∀ tier weekLoad acute chronicAvg,
      (acwrResult tier weekLoad acute chronicAvg).2 = .white ↔ weekLoad = 0) ∧
    (∀ weekLoad, (fatigueResult weekLoad).2 = .white ↔ weekLoad = 0) ∧
    (∀ variant, regionCategoryClass none variant = "heat-white") := by
  refine ⟨?_, ?_, ?_, ?_, ?_⟩
  · intro tier acute chronicAvg
    simp [acwrResult]
  · simp [fatigueResult]
  · intro tier weekLoad acute chronicAvg
    unfold acwrResult
    split_ifs with h
    · exact iff_of_true rfl h
    · exact iff_of_false (classifyAcwr_ne_white tier _) h
  · intro weekLoad
    unfold fatigueResult
    split_ifs with h
    · exact iff_of_true rfl h
    · exact iff_of_false (classifyFatigue_ne_white _) h
  · intro variant
    rfl

end Hybrid
